import Mathlib

/-!
# Outbound webhook delivery subsystem — shallow embedding

A shallow embedding of the outbound webhook delivery subsystem of the
orderHub repository, together with proofs of its specified properties.

The embedding covers:

* `WebhookService` (retry state machine, transport outcome normalization,
  exponential backoff scheduler, HMAC signing wrapper) — the webhook service
  source file;
* the standalone signature helpers `generateWebhookSignature` /
  `verifyWebhookSignature` from `src/lib/webhook-signature.ts`;
* the `WebhookDelivery` row shape and its Prisma schema defaults
  (`status PENDING`, `attemptCount 0`, `maxRetries 20`).

Modelling conventions:

* Timestamps (`Date.now()` milliseconds) are rationals; the value of "now"
  and the value of `Math.random()` (a number in `[0, 1)`) are explicit
  parameters of each operation that reads them, so the operations are pure.
* Node's `crypto.createHmac("sha256", key).update(msg).digest("hex")`
  primitive is an opaque external collaborator; it is modelled as an
  explicit function parameter `hmacSha256Hex : String → String → String`
  (key first, then message), since nothing in the repository depends on the
  internals of the digest.
* The serialized JSON payload is an opaque `String`: the service stores the
  payload in a JSON column and re-serializes the same stored value on every
  attempt, so the request body is a fixed function of the stored column.
* HTTP response bodies are `List Char` so that `substring(0, 1000)` is
  `List.take 1000`.
* Database writes through Prisma skip a field whose value is `undefined`;
  `updOpt` reproduces that: `none` keeps the stored value.
-/

namespace OrderHub

/-- The `WebhookStatus` enum of the Prisma schema.  `FAILED` is declared in
the schema but never assigned by the service. -/
inductive WebhookStatus where
  | PENDING
  | SUCCESS
  | FAILED
  | RETRYING
  | ABANDONED
deriving DecidableEq, Repr

/-- The TRPC error codes thrown by the webhook service. -/
inductive TRPCErrorCode where
  | NOT_FOUND
  | BAD_REQUEST
  | INTERNAL_SERVER_ERROR
deriving DecidableEq, Repr

/-- The slice of the `Customer` row the delivery path reads. -/
structure Customer where
  webhookUrl : String
  webhookNotifications : Bool
deriving DecidableEq, Repr

/-- An order joined with its customer, as returned by the
`db.order.findUnique(... include customer ...)` call in `deliverWebhook`. -/
structure Order where
  customer : Customer
deriving DecidableEq, Repr

/-- The `WebhookDelivery` row.  The surrogate `id` column and the textual
item payload details are irrelevant to the verified properties and are not
modelled; the `payload` JSON column is kept as its serialized form. -/
structure WebhookDelivery where
  customerId : String
  orderId : String
  eventType : String
  webhookUrl : String
  payload : String
  signature : String
  status : WebhookStatus
  httpStatus : Option Nat
  responseBody : Option (List Char)
  errorMessage : Option String
  attemptCount : Nat
  maxRetries : Nat
  nextRetryAt : Option ℚ
  createdAt : ℚ
  completedAt : Option ℚ
deriving DecidableEq, Repr

/-- What the `fetch` call inside `sendWebhookRequest` did: either a
completed HTTP exchange (status code plus response text), or a rejection
(timeout abort, DNS failure, connection refused, TLS failure, ...) carrying
the error message text (`"Unknown error occurred"` when the thrown value was
not an `Error`). -/
inductive FetchResult where
  | completed (status : Nat) (body : List Char)
  | thrown (message : String)
deriving DecidableEq, Repr

/-- The structured outcome returned by `sendWebhookRequest`. -/
structure SendResult where
  success : Bool
  status : Option Nat := none
  responseBody : Option (List Char) := none
  error : Option String := none
deriving DecidableEq, Repr

/-- The outbound HTTP POST built by `sendWebhookRequest`: target URL, the
serialized payload as the body, and the `X-Webhook-Signature` header value. -/
structure SentRequest where
  url : String
  body : String
  signatureHeader : String
deriving DecidableEq, Repr

/-- `response.ok`: the status code is in the 2xx range. -/
def responseOk (status : Nat) : Bool :=
  decide (200 ≤ status) && decide (status < 300)

/-- The request constructed by `sendWebhookRequest` before calling `fetch`:
POST to `url` with body `payloadString` and header
`X-Webhook-Signature: sha256=<signature>`. -/
def webhookRequest (url payloadString signature : String) : SentRequest :=
  { url := url
    body := payloadString
    signatureHeader := "sha256=" ++ signature }

/-- Outcome normalization of `sendWebhookRequest`: a completed exchange
yields `success = response.ok` with the status code and the response body
truncated to 1000 characters; a rejected `fetch` (timeout or network error)
is caught and yields a failure with only the error message.  The function is
total: the catch-all handler means no exception escapes to the caller. -/
def sendWebhookRequest (fetchResult : FetchResult) : SendResult :=
  match fetchResult with
  | .completed status body =>
      { success := responseOk status
        status := some status
        responseBody := some (body.take 1000) }
  | .thrown message =>
      { success := false
        error := some message }

/-- `WebhookService.MAX_RETRIES`. -/
def MAX_RETRIES : Nat := 20

/-- The `baseDelay` line of `calculateNextRetry`:
`Math.min(Math.pow(2, attemptCount), 60)` seconds. -/
def backoffBaseDelay (attemptCount : Nat) : ℚ :=
  min ((2 : ℚ) ^ attemptCount) 60

/-- `WebhookService.calculateNextRetry`.  `rand` is the value returned by
`Math.random()` (so `0 ≤ rand < 1`), `now` is `Date.now()` in
milliseconds. -/
def calculateNextRetry (attemptCount : Nat) (now rand : ℚ) : ℚ :=
  let baseDelay := backoffBaseDelay attemptCount
  let jitter := rand * (1 / 10) * baseDelay
  let delaySeconds := baseDelay + jitter
  now + delaySeconds * 1000

/-- `WebhookService.generateSignature`: HMAC-SHA256 of the payload keyed by
the secret, hex-encoded.  The digest primitive is the explicit parameter. -/
def generateSignature (hmacSha256Hex : String → String → String)
    (payload secret : String) : String :=
  hmacSha256Hex secret payload

/-- Prisma update semantics for a field whose value may be `undefined`:
`undefined` (`none`) omits the column from the UPDATE and keeps the stored
value, while a present value overwrites it. -/
def updOpt {α : Type} (new old : Option α) : Option α :=
  match new with
  | some v => some v
  | none => old

/-- The row inserted by `db.webhookDelivery.create` in `deliverWebhook`:
the explicitly passed columns plus the Prisma schema defaults
`status PENDING`, `attemptCount 0`, `nextRetryAt null`, `completedAt null`,
`createdAt now`; `maxRetries` is passed explicitly as `MAX_RETRIES`. -/
def freshDelivery (customerId orderId eventType webhookUrl payload signature : String)
    (now : ℚ) : WebhookDelivery :=
  { customerId := customerId
    orderId := orderId
    eventType := eventType
    webhookUrl := webhookUrl
    payload := payload
    signature := signature
    status := .PENDING
    httpStatus := none
    responseBody := none
    errorMessage := none
    attemptCount := 0
    maxRetries := MAX_RETRIES
    nextRetryAt := none
    createdAt := now
    completedAt := none }

/-- The record-creating part of `WebhookService.deliverWebhook`.
`findOrder` is the result of the `db.order.findUnique` lookup (joined with
its customer); `payloadString` is the serialized output of
`createWebhookPayload`; `secret` comes from `getWebhookSecret`.  A missing
order throws `NOT_FOUND`; a customer with `webhookNotifications` off throws
`BAD_REQUEST`, in both cases before any row is inserted, so the store is
returned unchanged.  Otherwise the signed pending record is appended to the
store and returned.  (The `attemptDelivery` call the service performs right
after creating the record is one application of `attemptDelivery` to this
created record; see `Reachable.step`.) -/
def deliverWebhook (store : List WebhookDelivery) (findOrder : Option Order)
    (customerId orderId eventType payloadString secret : String)
    (hmacSha256Hex : String → String → String) (now : ℚ) :
    List WebhookDelivery × Except TRPCErrorCode WebhookDelivery :=
  match findOrder with
  | none => (store, .error .NOT_FOUND)
  | some order =>
      if order.customer.webhookNotifications = false then
        (store, .error .BAD_REQUEST)
      else
        let signature := generateSignature hmacSha256Hex payloadString secret
        let delivery := freshDelivery customerId orderId eventType
          order.customer.webhookUrl payloadString signature now
        (store ++ [delivery], .ok delivery)

/-- `WebhookService.attemptDelivery` on an existing record, as a pure step:
the environment supplies what `fetch` did (`fetchResult`), `Date.now()`
(`now`) and `Math.random()` (`rand`).  Returns the updated record together
with the HTTP request actually sent (`none` when the record is already
terminal and the function returns without calling the transport).  The
diagnostic columns follow Prisma semantics (`updOpt`): an `undefined`
outcome field leaves the stored column untouched. -/
def attemptDelivery (delivery : WebhookDelivery) (fetchResult : FetchResult)
    (now rand : ℚ) : WebhookDelivery × Option SentRequest :=
  if delivery.status = WebhookStatus.SUCCESS ∨ delivery.status = WebhookStatus.ABANDONED then
    (delivery, none)
  else
    let result := sendWebhookRequest fetchResult
    let sent := some (webhookRequest delivery.webhookUrl delivery.payload delivery.signature)
    let newAttemptCount := delivery.attemptCount + 1
    if result.success then
      ({ delivery with
          status := WebhookStatus.SUCCESS
          httpStatus := updOpt result.status delivery.httpStatus
          responseBody := updOpt result.responseBody delivery.responseBody
          attemptCount := newAttemptCount
          completedAt := some now
          nextRetryAt := none }, sent)
    else
      let shouldRetry := decide (newAttemptCount < delivery.maxRetries)
      ({ delivery with
          status := if shouldRetry then WebhookStatus.RETRYING else WebhookStatus.ABANDONED
          httpStatus := updOpt result.status delivery.httpStatus
          responseBody := updOpt result.responseBody delivery.responseBody
          errorMessage := updOpt result.error delivery.errorMessage
          attemptCount := newAttemptCount
          nextRetryAt := if shouldRetry then some (calculateNextRetry newAttemptCount now rand)
            else none
          completedAt := if shouldRetry then none else some now }, sent)

/-- `n` successive `attemptDelivery` calls on a record, with per-call fetch
outcomes, clock readings and random draws supplied by streams (call `k`
uses index `k`). -/
def iterateAttempts (fetch : Nat → FetchResult) (times rands : Nat → ℚ) :
    Nat → WebhookDelivery → WebhookDelivery
  | 0, d => d
  | n + 1, d =>
      (attemptDelivery (iterateAttempts fetch times rands n d)
        (fetch n) (times n) (rands n)).1

/-- The HTTP requests actually sent during the first `n` successive
`attemptDelivery` calls on a record (calls that return without a transport
call contribute nothing). -/
def attemptTrace (fetch : Nat → FetchResult) (times rands : Nat → ℚ) :
    Nat → WebhookDelivery → List SentRequest
  | 0, _ => []
  | n + 1, d =>
      attemptTrace fetch times rands n d ++
        (attemptDelivery (iterateAttempts fetch times rands n d)
          (fetch n) (times n) (rands n)).2.toList

/-- Delivery records reachable in the system: a record created by a
successful `deliverWebhook` call, followed by any number of
`attemptDelivery` steps under arbitrary transport outcomes, clock readings
and random draws. -/
inductive Reachable : WebhookDelivery → Prop where
  | created (store : List WebhookDelivery) (order : Order)
      (customerId orderId eventType payloadString secret : String)
      (hmacSha256Hex : String → String → String) (now : ℚ)
      (d : WebhookDelivery)
      (h : (deliverWebhook store (some order) customerId orderId eventType
              payloadString secret hmacSha256Hex now).2 = .ok d) :
      Reachable d
  | step (d : WebhookDelivery) (fetchResult : FetchResult) (now rand : ℚ)
      (h : Reachable d) :
      Reachable (attemptDelivery d fetchResult now rand).1

/-- The delivery-record state invariant of the spec: the attempt count never
exceeds the ceiling; terminal records carry a completion timestamp and no
scheduled retry; live records carry no completion timestamp. -/
def Invariant (d : WebhookDelivery) : Prop :=
  d.attemptCount ≤ d.maxRetries ∧
  ((d.status = WebhookStatus.SUCCESS ∨ d.status = WebhookStatus.ABANDONED) →
    d.completedAt.isSome = true ∧ d.nextRetryAt = none) ∧
  ((d.status = WebhookStatus.PENDING ∨ d.status = WebhookStatus.RETRYING) →
    d.completedAt = none)

/-- Strengthening of `Invariant` closed under `attemptDelivery`: live
records are strictly below the ceiling, and the never-assigned `FAILED`
status does not occur. -/
def StrongInv (d : WebhookDelivery) : Prop :=
  Invariant d ∧
  d.status ≠ WebhookStatus.FAILED ∧
  ((d.status = WebhookStatus.PENDING ∨ d.status = WebhookStatus.RETRYING) →
    d.attemptCount < d.maxRetries)

/-- `generateWebhookSignature` from `src/lib/webhook-signature.ts`:
`"sha256=" + hmacSha256Hex(secret, payload)`.  Unlike the service-internal
`generateSignature`, the prefix is part of the returned string. -/
def generateWebhookSignature (hmacSha256Hex : String → String → String)
    (payload secret : String) : String :=
  "sha256=" ++ hmacSha256Hex secret payload

/-- `verifyWebhookSignature` from `src/lib/webhook-signature.ts`: recompute
the expected signature, compare the UTF-8 byte lengths of the two strings
(`Buffer.from(string).length`), return `false` on a mismatch, otherwise
compare the buffers (byte equality of UTF-8 encodings, i.e. string
equality).  The body cannot throw on string inputs, so the surrounding
`try`/`catch` (which would also return `false`) is not a separate case. -/
def verifyWebhookSignature (hmacSha256Hex : String → String → String)
    (payload signature secret : String) : Bool :=
  let expectedSignature := generateWebhookSignature hmacSha256Hex payload secret
  if signature.utf8ByteSize ≠ expectedSignature.utf8ByteSize then
    false
  else
    decide (signature = expectedSignature)

/-- Value of a hexadecimal digit character, `none` for any other
character. -/
def hexDigitVal (c : Char) : Option Nat :=
  if '0' ≤ c ∧ c ≤ '9' then some (c.toNat - '0'.toNat)
  else if 'a' ≤ c ∧ c ≤ 'f' then some (c.toNat - 'a'.toNat + 10)
  else if 'A' ≤ c ∧ c ≤ 'F' then some (c.toNat - 'A'.toNat + 10)
  else none

/-- Node's `Buffer.from(s, "hex")`: decode complete hex-digit pairs from the
start of the string, stopping at the first invalid or incomplete pair. -/
def hexDecode : List Char → List Nat
  | c1 :: c2 :: rest =>
      match hexDigitVal c1, hexDigitVal c2 with
      | some hi, some lo => (16 * hi + lo) :: hexDecode rest
      | _, _ => []
  | _ => []

/-- Node's `crypto.timingSafeEqual`: throws a `RangeError` when the two
buffers differ in length, otherwise a constant-time byte comparison. -/
def timingSafeEqual (a b : List Nat) : Except String Bool :=
  if a.length = b.length then
    .ok (decide (a = b))
  else
    .error "Input buffers must have the same byte length"

/-- `WebhookService.validateSignature`: recompute the expected hex digest
and pass the hex-decodings of both strings to `crypto.timingSafeEqual`.
There is no length guard and no `try`/`catch`, so a length mismatch between
the decoded buffers propagates the `RangeError` to the caller. -/
def validateSignature (hmacSha256Hex : String → String → String)
    (payload signature secret : String) : Except String Bool :=
  let expectedSignature := generateSignature hmacSha256Hex payload secret
  timingSafeEqual (hexDecode signature.data) (hexDecode expectedSignature.data)

/-- A fixed stand-in for the HMAC-SHA256 hex digest used to instantiate the
abstract primitive on concrete examples: like the real digest, it returns a
64-character lowercase-hex string for every input. -/
def hmacConst : String → String → String :=
  fun _ _ => "0123456789abcdef0123456789abcdef0123456789abcdef0123456789abcdef"

/-- A sample customer with callbacks enabled. -/
def sampleCustomerEnabled : Customer :=
  { webhookUrl := "https://client.example/cb", webhookNotifications := true }

/-- A sample customer with callbacks disabled. -/
def sampleCustomerDisabled : Customer :=
  { webhookUrl := "https://client.example/cb", webhookNotifications := false }

/-- A sample order whose customer has callbacks enabled. -/
def sampleOrder : Order := { customer := sampleCustomerEnabled }

/-- A sample order whose customer has callbacks disabled. -/
def sampleOrderDisabled : Order := { customer := sampleCustomerDisabled }

/-- The delivery record created by a sample `deliverWebhook` call. -/
def sampleDelivery : WebhookDelivery :=
  freshDelivery "c1" "o1" "order.completed" "https://client.example/cb" "p"
    (generateSignature hmacConst "p" "s1") 0

/-- A sample record already delivered successfully. -/
def sampleSuccessDelivery : WebhookDelivery :=
  { sampleDelivery with status := .SUCCESS, attemptCount := 1, completedAt := some 5 }

/-- A transport environment in which every attempt is refused at the network
level. -/
def alwaysRefused : Nat → FetchResult := fun _ => .thrown "connection refused"

/-- A constant clock and random stream for concrete runs. -/
def zeroClock : Nat → ℚ := fun _ => 0

/-! ## Unfolding lemmas for the three branches of `attemptDelivery` -/

/-- On a record already in a terminal status, `attemptDelivery` returns
before calling the transport and changes nothing. -/
lemma attemptDelivery_terminal_eq (d : WebhookDelivery) (fr : FetchResult) (now rand : ℚ)
    (h : d.status = WebhookStatus.SUCCESS ∨ d.status = WebhookStatus.ABANDONED) :
    attemptDelivery d fr now rand = (d, none) := by
  unfold attemptDelivery
  rw [if_pos h]

/-- The successful-outcome branch of `attemptDelivery`, written out. -/
lemma attemptDelivery_success_eq (d : WebhookDelivery) (fr : FetchResult) (now rand : ℚ)
    (hterm : ¬(d.status = WebhookStatus.SUCCESS ∨ d.status = WebhookStatus.ABANDONED))
    (hsucc : (sendWebhookRequest fr).success = true) :
    attemptDelivery d fr now rand =
      ({ d with
          status := WebhookStatus.SUCCESS
          httpStatus := updOpt (sendWebhookRequest fr).status d.httpStatus
          responseBody := updOpt (sendWebhookRequest fr).responseBody d.responseBody
          attemptCount := d.attemptCount + 1
          completedAt := some now
          nextRetryAt := none },
        some (webhookRequest d.webhookUrl d.payload d.signature)) := by
  unfold attemptDelivery
  rw [if_neg hterm]
  simp only [hsucc, if_true]

/-- The failed-outcome branch of `attemptDelivery`, written out. -/
lemma attemptDelivery_failure_eq (d : WebhookDelivery) (fr : FetchResult) (now rand : ℚ)
    (hterm : ¬(d.status = WebhookStatus.SUCCESS ∨ d.status = WebhookStatus.ABANDONED))
    (hfail : (sendWebhookRequest fr).success = false) :
    attemptDelivery d fr now rand =
      ({ d with
          status := if d.attemptCount + 1 < d.maxRetries then WebhookStatus.RETRYING
            else WebhookStatus.ABANDONED
          httpStatus := updOpt (sendWebhookRequest fr).status d.httpStatus
          responseBody := updOpt (sendWebhookRequest fr).responseBody d.responseBody
          errorMessage := updOpt (sendWebhookRequest fr).error d.errorMessage
          attemptCount := d.attemptCount + 1
          nextRetryAt := if d.attemptCount + 1 < d.maxRetries then
              some (calculateNextRetry (d.attemptCount + 1) now rand)
            else none
          completedAt := if d.attemptCount + 1 < d.maxRetries then none else some now },
        some (webhookRequest d.webhookUrl d.payload d.signature)) := by
  unfold attemptDelivery
  rw [if_neg hterm]
  simp only [hfail, Bool.false_eq_true, if_false, decide_eq_true_eq]

/-! ## Backoff arithmetic -/

/-- Below the clamp, the base delay is the exact power of two. -/
lemma backoffBaseDelay_of_le_five (k : Nat) (hk : k ≤ 5) :
    backoffBaseDelay k = (2 : ℚ) ^ k := by
  unfold backoffBaseDelay
  refine min_eq_left ?_
  calc (2 : ℚ) ^ k ≤ 2 ^ 5 := pow_le_pow_right₀ (by norm_num) hk
    _ ≤ 60 := by norm_num

/-- From attempt number 6 on, the base delay is clamped at 60 seconds. -/
lemma backoffBaseDelay_of_six_le (n : Nat) (hn : 6 ≤ n) :
    backoffBaseDelay n = 60 := by
  unfold backoffBaseDelay
  refine min_eq_right ?_
  calc (60 : ℚ) ≤ 2 ^ 6 := by norm_num
    _ ≤ 2 ^ n := pow_le_pow_right₀ (by norm_num) hn

/-- The base delay is never negative. -/
lemma backoffBaseDelay_nonneg (n : Nat) : 0 ≤ backoffBaseDelay n :=
  le_min (by positivity) (by norm_num)

/-! ## Iterated failing runs -/

/-- Exact shape of a record after `n` attempts that all fail, starting from
a fresh pending record with the default ceiling of 20. -/
lemma iterate_allfail_spec (fetch : Nat → FetchResult) (times rands : Nat → ℚ)
    (d : WebhookDelivery)
    (hfail : ∀ k, (sendWebhookRequest (fetch k)).success = false)
    (hst : d.status = WebhookStatus.PENDING) (hct : d.attemptCount = 0)
    (hmx : d.maxRetries = 20) :
    ∀ n, (iterateAttempts fetch times rands n d).maxRetries = 20 ∧
      (iterateAttempts fetch times rands n d).attemptCount = min n 20 ∧
      (iterateAttempts fetch times rands n d).status =
        (if n = 0 then WebhookStatus.PENDING
         else if n < 20 then WebhookStatus.RETRYING else WebhookStatus.ABANDONED) := by
  intro n
  induction n with
  | zero => simpa [iterateAttempts, hst, hct] using hmx
  | succ n ih =>
    obtain ⟨ihmax, ihcount, ihstatus⟩ := ih
    by_cases h20 : 20 ≤ n
    · have hterm : (iterateAttempts fetch times rands n d).status = WebhookStatus.SUCCESS ∨
          (iterateAttempts fetch times rands n d).status = WebhookStatus.ABANDONED := by
        right
        rw [ihstatus]
        rw [if_neg (by omega), if_neg (by omega)]
      simp only [iterateAttempts,
        attemptDelivery_terminal_eq _ _ _ _ hterm]
      refine ⟨ihmax, ?_, ?_⟩
      · rw [ihcount]; omega
      · rw [ihstatus]
        rw [if_neg (by omega), if_neg (by omega), if_neg (by omega), if_neg (by omega)]
    · push_neg at h20
      have hterm : ¬((iterateAttempts fetch times rands n d).status = WebhookStatus.SUCCESS ∨
          (iterateAttempts fetch times rands n d).status = WebhookStatus.ABANDONED) := by
        rw [ihstatus]
        by_cases hn0 : n = 0
        · rw [if_pos hn0]; simp
        · rw [if_neg hn0, if_pos h20]; simp
      simp only [iterateAttempts,
        attemptDelivery_failure_eq _ _ _ _ hterm (hfail n)]
      refine ⟨ihmax, ?_, ?_⟩
      · simp only [ihcount, ihmax]; omega
      · simp only [ihcount, ihmax]
        have hmin : min n 20 = n := by omega
        rw [hmin]
        by_cases hlast : n + 1 < 20
        · rw [if_pos hlast, if_neg (Nat.succ_ne_zero n)]
        · rw [if_neg hlast, if_neg (Nat.succ_ne_zero n)]

/-! ## Reachability invariant machinery -/

/-- A freshly created record satisfies the strengthened invariant. -/
lemma strongInv_fresh (customerId orderId eventType webhookUrl payload signature : String)
    (now : ℚ) :
    StrongInv (freshDelivery customerId orderId eventType webhookUrl payload signature now) := by
  refine ⟨⟨?_, ?_, ?_⟩, ?_, ?_⟩ <;> simp [freshDelivery, MAX_RETRIES]

/-- Inversion of a successful `deliverWebhook` call: the customer had
callbacks enabled and the returned record is the fresh pending record. -/
lemma deliverWebhook_ok_eq (store : List WebhookDelivery) (order : Order)
    (customerId orderId eventType payloadString secret : String)
    (hmacSha256Hex : String → String → String) (now : ℚ) (d : WebhookDelivery)
    (h : (deliverWebhook store (some order) customerId orderId eventType
            payloadString secret hmacSha256Hex now).2 = .ok d) :
    order.customer.webhookNotifications = true ∧
    d = freshDelivery customerId orderId eventType order.customer.webhookUrl
          payloadString (generateSignature hmacSha256Hex payloadString secret) now := by
  simp only [deliverWebhook] at h
  by_cases hn : order.customer.webhookNotifications = false
  · rw [if_pos hn] at h
    exact absurd h (by simp)
  · rw [if_neg hn] at h
    simp only [Except.ok.injEq] at h
    exact ⟨by simpa using hn, h.symm⟩

/-- One `attemptDelivery` step preserves the strengthened invariant. -/
lemma strongInv_step (d : WebhookDelivery) (fr : FetchResult) (now rand : ℚ)
    (h : StrongInv d) : StrongInv (attemptDelivery d fr now rand).1 := by
  obtain ⟨⟨hcount, hterm2, hlive⟩, hnf, hlt⟩ := h
  by_cases ht : d.status = WebhookStatus.SUCCESS ∨ d.status = WebhookStatus.ABANDONED
  · rw [attemptDelivery_terminal_eq _ _ _ _ ht]
    exact ⟨⟨hcount, hterm2, hlive⟩, hnf, hlt⟩
  · have hpr : d.status = WebhookStatus.PENDING ∨ d.status = WebhookStatus.RETRYING := by
      cases hs : d.status <;> simp [hs] at ht hnf ⊢
    have hclt : d.attemptCount < d.maxRetries := hlt hpr
    cases hsucc : (sendWebhookRequest fr).success with
    | true =>
      rw [attemptDelivery_success_eq _ _ _ _ ht hsucc]
      exact ⟨⟨by simpa using hclt, by simp, by simp⟩, by simp, by simp⟩
    | false =>
      rw [attemptDelivery_failure_eq _ _ _ _ ht hsucc]
      by_cases hr : d.attemptCount + 1 < d.maxRetries
      · exact ⟨⟨by simp [hr]; omega, by simp [hr], by simp [hr]⟩,
          by simp [hr], by simp [hr]⟩
      · exact ⟨⟨by simp [hr]; omega, by simp [hr], by simp [hr]⟩,
          by simp [hr], by simp [hr]⟩

/-- Every reachable record satisfies the strengthened invariant. -/
lemma strongInv_reachable (d : WebhookDelivery) (h : Reachable d) : StrongInv d := by
  induction h with
  | created store order customerId orderId eventType payloadString secret hmac now d hok =>
    obtain ⟨-, hd⟩ := deliverWebhook_ok_eq store order customerId orderId eventType
      payloadString secret hmac now d hok
    rw [hd]
    apply strongInv_fresh
  | step d fr now rand hreach ih =>
    exact strongInv_step d fr now rand ih

/-! ## Frozen request content -/

/-- A single `attemptDelivery` step never rewrites the payload, signature or
target URL columns. -/
lemma attemptDelivery_frozen (d : WebhookDelivery) (fr : FetchResult) (now rand : ℚ) :
    (attemptDelivery d fr now rand).1.payload = d.payload ∧
    (attemptDelivery d fr now rand).1.signature = d.signature ∧
    (attemptDelivery d fr now rand).1.webhookUrl = d.webhookUrl := by
  by_cases ht : d.status = WebhookStatus.SUCCESS ∨ d.status = WebhookStatus.ABANDONED
  · rw [attemptDelivery_terminal_eq _ _ _ _ ht]
    exact ⟨rfl, rfl, rfl⟩
  · cases hsucc : (sendWebhookRequest fr).success with
    | true =>
      rw [attemptDelivery_success_eq _ _ _ _ ht hsucc]
      exact ⟨rfl, rfl, rfl⟩
    | false =>
      rw [attemptDelivery_failure_eq _ _ _ _ ht hsucc]
      exact ⟨rfl, rfl, rfl⟩

/-- Any number of `attemptDelivery` steps never rewrites the payload,
signature or target URL columns. -/
lemma iterate_frozen (fetch : Nat → FetchResult) (times rands : Nat → ℚ)
    (d : WebhookDelivery) (n : Nat) :
    (iterateAttempts fetch times rands n d).payload = d.payload ∧
    (iterateAttempts fetch times rands n d).signature = d.signature ∧
    (iterateAttempts fetch times rands n d).webhookUrl = d.webhookUrl := by
  induction n with
  | zero => exact ⟨rfl, rfl, rfl⟩
  | succ n ih =>
    obtain ⟨hp, hs, hu⟩ := ih
    obtain ⟨hp2, hs2, hu2⟩ := attemptDelivery_frozen
      (iterateAttempts fetch times rands n d) (fetch n) (times n) (rands n)
    exact ⟨hp ▸ hp2, hs ▸ hs2, hu ▸ hu2⟩

/-- When a step does send a request, it is exactly the record's frozen
URL, payload and signature. -/
lemma attemptDelivery_sent (d : WebhookDelivery) (fr : FetchResult) (now rand : ℚ)
    (r : SentRequest) (hr : (attemptDelivery d fr now rand).2 = some r) :
    r = webhookRequest d.webhookUrl d.payload d.signature := by
  by_cases ht : d.status = WebhookStatus.SUCCESS ∨ d.status = WebhookStatus.ABANDONED
  · rw [attemptDelivery_terminal_eq _ _ _ _ ht] at hr
    exact absurd hr (by simp)
  · cases hsucc : (sendWebhookRequest fr).success with
    | true =>
      rw [attemptDelivery_success_eq _ _ _ _ ht hsucc] at hr
      simpa using hr.symm
    | false =>
      rw [attemptDelivery_failure_eq _ _ _ _ ht hsucc] at hr
      simpa using hr.symm

/-! ## Claims -/

/-- C1: a delivery record whose transport outcome fails on every attempt
reaches status ABANDONED with attempt count exactly 20 (the default
`maxRetries`) after 20 attempts, and no number of further calls ever raises
the attempt count above 20. -/
theorem retry_ceiling (fetch : Nat → FetchResult) (times rands : Nat → ℚ)
    (d : WebhookDelivery)
    (hfail : ∀ k, (sendWebhookRequest (fetch k)).success = false)
    (hst : d.status = WebhookStatus.PENDING) (hct : d.attemptCount = 0)
    (hmx : d.maxRetries = 20) :
    ((iterateAttempts fetch times rands 20 d).status = WebhookStatus.ABANDONED ∧
     (iterateAttempts fetch times rands 20 d).attemptCount = 20) ∧
    ∀ n : Nat, (iterateAttempts fetch times rands n d).attemptCount ≤ 20 ∧
      (20 ≤ n → (iterateAttempts fetch times rands n d).status = WebhookStatus.ABANDONED ∧
        (iterateAttempts fetch times rands n d).attemptCount = 20) := by
  have h := iterate_allfail_spec fetch times rands d hfail hst hct hmx
  constructor
  · obtain ⟨-, hc, hs⟩ := h 20
    refine ⟨?_, ?_⟩
    · rw [hs]; rw [if_neg (by omega), if_neg (by omega)]
    · rw [hc]; omega
  · intro n
    obtain ⟨-, hc, hs⟩ := h n
    refine ⟨by rw [hc]; omega, fun h20 => ⟨?_, ?_⟩⟩
    · rw [hs]; rw [if_neg (by omega), if_neg (by omega)]
    · rw [hc]; omega

/-- C1 witness: a concrete fresh record under a transport refused on every
attempt is abandoned with attempt count 20 after 20 attempts, and 5 further
attempts change neither the status nor the count. -/
theorem retry_ceiling_witness :
    ((iterateAttempts alwaysRefused zeroClock zeroClock 20 sampleDelivery).status =
        WebhookStatus.ABANDONED ∧
     (iterateAttempts alwaysRefused zeroClock zeroClock 20 sampleDelivery).attemptCount = 20) ∧
    (iterateAttempts alwaysRefused zeroClock zeroClock 25 sampleDelivery).attemptCount ≤ 20 ∧
    (iterateAttempts alwaysRefused zeroClock zeroClock 25 sampleDelivery).status =
      WebhookStatus.ABANDONED :=
  ⟨(retry_ceiling alwaysRefused zeroClock zeroClock sampleDelivery
      (fun _ => rfl) rfl rfl rfl).1,
   ((retry_ceiling alwaysRefused zeroClock zeroClock sampleDelivery
      (fun _ => rfl) rfl rfl rfl).2 25).1,
   (((retry_ceiling alwaysRefused zeroClock zeroClock sampleDelivery
      (fun _ => rfl) rfl rfl rfl).2 25).2 (by norm_num)).1⟩

/-- C2: every record reachable by a `deliverWebhook` creation followed by
any sequence of `attemptDelivery` steps satisfies the state invariant:
attempt count never exceeds `maxRetries`; a SUCCESS or ABANDONED record has
its completion timestamp set and no scheduled retry; a PENDING or RETRYING
record has no completion timestamp. -/
theorem reachable_invariant (d : WebhookDelivery) (h : Reachable d) : Invariant d :=
  (strongInv_reachable d h).1

/-- C2 witness: the invariant holds of the concrete record created by a
concrete `deliverWebhook` call. -/
theorem reachable_invariant_witness : Invariant sampleDelivery :=
  reachable_invariant sampleDelivery
    (Reachable.created [] sampleOrder "c1" "o1" "order.completed" "p" "s1"
      hmacConst 0 sampleDelivery rfl)

/-- C3: the retry scheduler's base delay is min(2 ^ n, 60) seconds — the
strictly increasing sequence 1, 2, 4, 8, 16, 32 for attempt numbers 0..5,
clamped to 60 from attempt number 6 on — and the scheduled time is the
current time plus that delay plus a jitter of at most 10 percent of the base
delay that is only ever added, never subtracted. -/
theorem calculateNextRetry_spec (n : Nat) (now rand : ℚ)
    (h0 : 0 ≤ rand) (h1 : rand < 1) :
    backoffBaseDelay n = min ((2 : ℚ) ^ n) 60 ∧
    (backoffBaseDelay 0 = 1 ∧ backoffBaseDelay 1 = 2 ∧ backoffBaseDelay 2 = 4 ∧
     backoffBaseDelay 3 = 8 ∧ backoffBaseDelay 4 = 16 ∧ backoffBaseDelay 5 = 32) ∧
    (∀ m k : Nat, m < k → k ≤ 5 → backoffBaseDelay m < backoffBaseDelay k) ∧
    (6 ≤ n → backoffBaseDelay n = 60) ∧
    (∃ jitter : ℚ, 0 ≤ jitter ∧ jitter ≤ backoffBaseDelay n / 10 ∧
      calculateNextRetry n now rand = now + (backoffBaseDelay n + jitter) * 1000) := by
  refine ⟨rfl, ?_, ?_, backoffBaseDelay_of_six_le n, ?_⟩
  · refine ⟨?_, ?_, ?_, ?_, ?_, ?_⟩ <;>
      rw [backoffBaseDelay_of_le_five _ (by norm_num)] <;> norm_num
  · intro m k hmk hk5
    rw [backoffBaseDelay_of_le_five m (le_trans hmk.le hk5),
        backoffBaseDelay_of_le_five k hk5]
    exact pow_lt_pow_right₀ (by norm_num) hmk
  · refine ⟨rand * (1 / 10) * backoffBaseDelay n, ?_, ?_, rfl⟩
    · have hb := backoffBaseDelay_nonneg n
      positivity
    · have hb := backoffBaseDelay_nonneg n
      have h2 : rand * (1 / 10) * backoffBaseDelay n ≤ 1 * (1 / 10) * backoffBaseDelay n := by
        apply mul_le_mul_of_nonneg_right _ hb
        linarith
      linarith

/-- C3 witness: the scheduler property at attempt number 3, time 0 and
random draw one half. -/
theorem calculateNextRetry_spec_witness :
    (0 ≤ (1 : ℚ) / 2 ∧ (1 : ℚ) / 2 < 1) ∧
    (backoffBaseDelay 3 = min ((2 : ℚ) ^ 3) 60 ∧
     (backoffBaseDelay 0 = 1 ∧ backoffBaseDelay 1 = 2 ∧ backoffBaseDelay 2 = 4 ∧
      backoffBaseDelay 3 = 8 ∧ backoffBaseDelay 4 = 16 ∧ backoffBaseDelay 5 = 32) ∧
     (∀ m k : Nat, m < k → k ≤ 5 → backoffBaseDelay m < backoffBaseDelay k) ∧
     (6 ≤ 3 → backoffBaseDelay 3 = 60) ∧
     (∃ jitter : ℚ, 0 ≤ jitter ∧ jitter ≤ backoffBaseDelay 3 / 10 ∧
       calculateNextRetry 3 0 ((1 : ℚ) / 2) = 0 + (backoffBaseDelay 3 + jitter) * 1000)) :=
  ⟨⟨by norm_num, by norm_num⟩,
   calculateNextRetry_spec 3 0 ((1 : ℚ) / 2) (by norm_num) (by norm_num)⟩

/-- C4: calling `attemptDelivery` on a record already in SUCCESS or
ABANDONED returns immediately: no transport call is made (no request is
sent) and every field of the record is unchanged. -/
theorem attempt_terminal_noop (d : WebhookDelivery) (fr : FetchResult) (now rand : ℚ)
    (h : d.status = WebhookStatus.SUCCESS ∨ d.status = WebhookStatus.ABANDONED) :
    attemptDelivery d fr now rand = (d, none) :=
  attemptDelivery_terminal_eq d fr now rand h

/-- C4 witness: a concrete successful record is returned untouched, with no
request sent, even when the environment would have answered 200. -/
theorem attempt_terminal_noop_witness :
    attemptDelivery sampleSuccessDelivery (.completed 200 []) 7 0 =
      (sampleSuccessDelivery, none) :=
  attempt_terminal_noop sampleSuccessDelivery (.completed 200 []) 7 0 (Or.inl rfl)

/-- C5: the transport outcome is a success iff the completed HTTP exchange
has a 2xx status code; any other completed exchange yields a failure
carrying that status code and at most 1000 characters of the response body;
a thrown network error or timeout yields a failure with no HTTP status and
the error text.  The function is total, so no exception reaches the
caller. -/
theorem sendWebhookRequest_spec (status : Nat) (body : List Char) (msg : String) :
    ((sendWebhookRequest (.completed status body)).success = true ↔
      (200 ≤ status ∧ status < 300)) ∧
    (sendWebhookRequest (.completed status body)).status = some status ∧
    (sendWebhookRequest (.completed status body)).responseBody = some (body.take 1000) ∧
    (body.take 1000).length ≤ 1000 ∧
    (sendWebhookRequest (.completed status body)).error = none ∧
    (sendWebhookRequest (.thrown msg)) =
      { success := false, status := none, responseBody := none, error := some msg } := by
  refine ⟨?_, rfl, rfl, ?_, rfl, rfl⟩
  · simp [sendWebhookRequest, responseOk]
  · rw [List.length_take]
    exact min_le_left _ _

/-- C5 witness: the transport property at a concrete 503 exchange and a
concrete timeout error. -/
theorem sendWebhookRequest_spec_witness :
    ((sendWebhookRequest (.completed 503 ['e'])).success = true ↔
      (200 ≤ 503 ∧ 503 < 300)) ∧
    (sendWebhookRequest (.completed 503 ['e'])).status = some 503 ∧
    (sendWebhookRequest (.completed 503 ['e'])).responseBody = some (['e'].take 1000) ∧
    (['e'].take 1000).length ≤ 1000 ∧
    (sendWebhookRequest (.completed 503 ['e'])).error = none ∧
    (sendWebhookRequest (.thrown "The operation was aborted")) =
      { success := false, status := none, responseBody := none,
        error := some "The operation was aborted" } :=
  sendWebhookRequest_spec 503 ['e'] "The operation was aborted"

/-- C6: the payload and signature columns of a record are never mutated
after creation, and every HTTP request sent during any sequence of attempts
(retries included) carries exactly the record's original URL, payload and
signature — so every attempt's content is byte-identical to the first
attempt's. -/
theorem attemptTrace_frozen (fetch : Nat → FetchResult) (times rands : Nat → ℚ)
    (d : WebhookDelivery) (n : Nat) (r : SentRequest)
    (hr : r ∈ attemptTrace fetch times rands n d) :
    r = webhookRequest d.webhookUrl d.payload d.signature ∧
    (iterateAttempts fetch times rands n d).payload = d.payload ∧
    (iterateAttempts fetch times rands n d).signature = d.signature := by
  refine ⟨?_, (iterate_frozen fetch times rands d n).1,
    (iterate_frozen fetch times rands d n).2.1⟩
  induction n with
  | zero => simp [attemptTrace] at hr
  | succ n ih =>
    simp only [attemptTrace, List.mem_append] at hr
    rcases hr with hr | hr
    · exact ih hr
    · cases ho : (attemptDelivery (iterateAttempts fetch times rands n d)
          (fetch n) (times n) (rands n)).2 with
      | none => rw [ho] at hr; simp at hr
      | some x =>
        rw [ho] at hr
        simp only [Option.toList_some, List.mem_singleton] at hr
        subst hr
        obtain ⟨hp, hs, hu⟩ := iterate_frozen fetch times rands d n
        rw [attemptDelivery_sent _ _ _ _ _ ho, hp, hs, hu]

/-- C6 witness: in a concrete two-attempt run (both attempts refused), a
request appearing in the trace is exactly the record's original content,
and the payload and signature columns are unchanged. -/
theorem attemptTrace_frozen_witness :
    (webhookRequest sampleDelivery.webhookUrl sampleDelivery.payload
        sampleDelivery.signature ∈
      attemptTrace alwaysRefused zeroClock zeroClock 2 sampleDelivery) ∧
    (webhookRequest sampleDelivery.webhookUrl sampleDelivery.payload
        sampleDelivery.signature =
      webhookRequest sampleDelivery.webhookUrl sampleDelivery.payload
        sampleDelivery.signature ∧
     (iterateAttempts alwaysRefused zeroClock zeroClock 2 sampleDelivery).payload =
       sampleDelivery.payload ∧
     (iterateAttempts alwaysRefused zeroClock zeroClock 2 sampleDelivery).signature =
       sampleDelivery.signature) :=
  ⟨by decide,
   attemptTrace_frozen alwaysRefused zeroClock zeroClock sampleDelivery 2
     (webhookRequest sampleDelivery.webhookUrl sampleDelivery.payload
       sampleDelivery.signature) (by decide)⟩

/-- C7: `deliverWebhook` on a customer with callbacks disabled fails with
the BAD_REQUEST configuration error and persists no record (the store is
returned unchanged); on an enabled customer it persists a new record with
status PENDING, attempt count 0 and max attempts 20 — created before the
first delivery attempt is made. -/
theorem deliverWebhook_gating (store : List WebhookDelivery) (order : Order)
    (customerId orderId eventType payloadString secret : String)
    (hmacSha256Hex : String → String → String) (now : ℚ) :
    (order.customer.webhookNotifications = false →
      deliverWebhook store (some order) customerId orderId eventType payloadString secret
        hmacSha256Hex now = (store, .error .BAD_REQUEST)) ∧
    (order.customer.webhookNotifications = true →
      ∃ d, deliverWebhook store (some order) customerId orderId eventType payloadString secret
          hmacSha256Hex now = (store ++ [d], .ok d) ∧
        d.status = WebhookStatus.PENDING ∧ d.attemptCount = 0 ∧ d.maxRetries = 20 ∧
        d.completedAt = none ∧ d.nextRetryAt = none ∧
        d.payload = payloadString ∧
        d.signature = generateSignature hmacSha256Hex payloadString secret ∧
        d.webhookUrl = order.customer.webhookUrl) := by
  constructor
  · intro hn
    simp [deliverWebhook, hn]
  · intro hn
    refine ⟨freshDelivery customerId orderId eventType order.customer.webhookUrl
      payloadString (generateSignature hmacSha256Hex payloadString secret) now,
      ?_, rfl, rfl, rfl, rfl, rfl, rfl, rfl, rfl⟩
    simp [deliverWebhook, hn]

/-- C7 witness: a concrete disabled customer yields BAD_REQUEST with the
store unchanged; a concrete enabled customer yields a persisted pending
record with attempt count 0 and ceiling 20. -/
theorem deliverWebhook_gating_witness :
    (deliverWebhook [] (some sampleOrderDisabled) "c1" "o1" "order.completed" "p" "s1"
      hmacConst 0 = ([], .error .BAD_REQUEST)) ∧
    (∃ d, deliverWebhook [] (some sampleOrder) "c1" "o1" "order.completed" "p" "s1"
        hmacConst 0 = ([] ++ [d], .ok d) ∧
      d.status = WebhookStatus.PENDING ∧ d.attemptCount = 0 ∧ d.maxRetries = 20 ∧
      d.completedAt = none ∧ d.nextRetryAt = none ∧
      d.payload = "p" ∧
      d.signature = generateSignature hmacConst "p" "s1" ∧
      d.webhookUrl = sampleOrder.customer.webhookUrl) :=
  ⟨(deliverWebhook_gating [] sampleOrderDisabled "c1" "o1" "order.completed" "p" "s1"
      hmacConst 0).1 rfl,
   (deliverWebhook_gating [] sampleOrder "c1" "o1" "order.completed" "p" "s1"
      hmacConst 0).2 rfl⟩

/-- C8 counterexample: the claim says verification returns false on a length
mismatch and never raises, but `WebhookService.validateSignature` (one of
the two cited verification routines) passes the unguarded buffers straight
to `crypto.timingSafeEqual`, which throws a RangeError when the supplied
signature's decoded length differs from the 32-byte expected digest — here
on the empty signature string. -/
theorem validateSignature_raises :
    validateSignature hmacConst "payload" "" "secret" =
      .error "Input buffers must have the same byte length" := rfl

/-- C8 (amended): for the standalone `verifyWebhookSignature` of
`src/lib/webhook-signature.ts`, a supplied signature whose length differs
from the recomputed expected signature's length yields false immediately,
before the byte comparison; that function is total, so it never raises. -/
theorem verify_length_mismatch (hmacSha256Hex : String → String → String)
    (payload signature secret : String)
    (h : signature.utf8ByteSize ≠
      (generateWebhookSignature hmacSha256Hex payload secret).utf8ByteSize) :
    verifyWebhookSignature hmacSha256Hex payload signature secret = false := by
  unfold verifyWebhookSignature
  rw [if_pos h]

/-- C8 witness: the empty signature string is shorter than the expected
signature and is rejected. -/
theorem verify_length_mismatch_witness :
    "".utf8ByteSize ≠ (generateWebhookSignature hmacConst "p" "s").utf8ByteSize ∧
    verifyWebhookSignature hmacConst "p" "" "s" = false :=
  ⟨by decide, verify_length_mismatch hmacConst "p" "" "s" (by decide)⟩

/-- C9: signing is deterministic — repeated calls return the same
signature — and verifying a payload against its own signature under the
same secret always succeeds. -/
theorem sign_verify_roundtrip (hmacSha256Hex : String → String → String) (p s : String) :
    generateWebhookSignature hmacSha256Hex p s = generateWebhookSignature hmacSha256Hex p s ∧
    verifyWebhookSignature hmacSha256Hex p (generateWebhookSignature hmacSha256Hex p s) s
      = true := by
  refine ⟨rfl, ?_⟩
  unfold verifyWebhookSignature
  rw [if_neg (by simp)]
  simp

/-- C9 witness: the round trip at a concrete payload and secret. -/
theorem sign_verify_roundtrip_witness :
    generateWebhookSignature hmacConst "p" "s" = generateWebhookSignature hmacConst "p" "s" ∧
    verifyWebhookSignature hmacConst "p" (generateWebhookSignature hmacConst "p" "s") "s"
      = true :=
  sign_verify_roundtrip hmacConst "p" "s"

/-- C10: a failed attempt that schedules a retry computes the next retry
time from the already-incremented attempt count: after the record's k-th
attempt the scheduler is called with attempt number k, so the first
scheduled retry (from attempt count 0) uses attempt number 1 with base
delay 2 seconds, and the 1-second base delay of attempt number 0 is never
used by any scheduled retry (every scheduled retry's base delay is at least
2 seconds, while attempt number 0 has base delay 1). -/
theorem nextRetry_uses_incremented_count (d : WebhookDelivery) (fr : FetchResult)
    (now rand : ℚ)
    (hfail : (sendWebhookRequest fr).success = false)
    (hact : d.status = WebhookStatus.PENDING ∨ d.status = WebhookStatus.RETRYING)
    (hlt : d.attemptCount + 1 < d.maxRetries) :
    (attemptDelivery d fr now rand).1.nextRetryAt =
      some (calculateNextRetry (d.attemptCount + 1) now rand) ∧
    backoffBaseDelay 0 = 1 ∧
    2 ≤ backoffBaseDelay (d.attemptCount + 1) ∧
    (d.attemptCount = 0 → backoffBaseDelay (d.attemptCount + 1) = 2) := by
  have hterm : ¬(d.status = WebhookStatus.SUCCESS ∨ d.status = WebhookStatus.ABANDONED) := by
    rcases hact with h | h <;> simp [h]
  refine ⟨?_, ?_, ?_, ?_⟩
  · rw [attemptDelivery_failure_eq _ _ _ _ hterm hfail]
    simp [hlt]
  · rw [backoffBaseDelay_of_le_five 0 (by norm_num)]
    norm_num
  · refine le_min ?_ (by norm_num)
    calc (2 : ℚ) = 2 ^ 1 := by norm_num
      _ ≤ 2 ^ (d.attemptCount + 1) := pow_le_pow_right₀ (by norm_num) (by omega)
  · intro h0
    rw [h0, backoffBaseDelay_of_le_five 1 (by norm_num)]
    norm_num

/-- C10 witness: the first failed attempt of a concrete fresh record
schedules its retry from attempt number 1 with base delay 2 seconds. -/
theorem nextRetry_uses_incremented_count_witness :
    (sendWebhookRequest (.thrown "timeout")).success = false ∧
    (sampleDelivery.status = WebhookStatus.PENDING ∨
      sampleDelivery.status = WebhookStatus.RETRYING) ∧
    sampleDelivery.attemptCount + 1 < sampleDelivery.maxRetries ∧
    ((attemptDelivery sampleDelivery (.thrown "timeout") 100 0).1.nextRetryAt =
        some (calculateNextRetry (sampleDelivery.attemptCount + 1) 100 0) ∧
     backoffBaseDelay 0 = 1 ∧
     2 ≤ backoffBaseDelay (sampleDelivery.attemptCount + 1) ∧
     (sampleDelivery.attemptCount = 0 →
       backoffBaseDelay (sampleDelivery.attemptCount + 1) = 2)) :=
  ⟨rfl, Or.inl rfl, by decide,
   nextRetry_uses_incremented_count sampleDelivery (.thrown "timeout") 100 0
     rfl (Or.inl rfl) (by decide)⟩

end OrderHub
